import Mathlib

/-!
Verification of the Zoom phone integration Flask app (src/app.py).

The app is a single-process HTTP service with global mutable state
(`access_token`, `user_id`) and five handlers.  We embed each handler as a
pure Lean function.  Python values flowing through the handlers (JSON
bodies, tokens, ids) are modelled by the `Json` inductive, where
`Json.null` plays the role of Python `None`.  Outbound HTTP requests are
made explicit: a handler that may issue a request returns the request it
built (or `none` when it returned before issuing one) together with the
HTTP response; the behaviour of the remote server is an oracle argument
(`Outcome`) consulted only when the request is issued.
-/

namespace ZoomApp

/-- Python/JSON values as they flow through the handlers.  `null` is
Python `None`; object fields are an association list with distinct keys
(Python dict). -/
inductive Json where
  | null
  | bool (b : Bool)
  | num (n : Int)
  | str (s : String)
  | arr (elems : List Json)
  | obj (fields : List (String × Json))


/-- Association-list lookup used for Python `dict` access. -/
def jsonLookup : List (String × Json) → String → Option Json
  | [], _ => none
  | (k, v) :: rest, key => if k = key then some v else jsonLookup rest key

/-- Python truthiness (`if not x`): `None`, `False`, `0`, `""`, `[]`, and
an empty dict are falsy. -/
def pyTruthy : Json → Bool
  | .null => false
  | .bool b => b
  | .num n => n != 0
  | .str s => s != ""
  | .arr l => !l.isEmpty
  | .obj l => !l.isEmpty

/-- Truthiness of a query/form parameter: `request.args.get` and
`request.form.get` return `None` (here `none`) or a string, and the
handlers test them with `if not x`, so `none` and the empty string are
falsy. -/
def truthyParam : Option String → Bool
  | none => false
  | some s => s != ""

/-- The Python type name of a value, as it appears in `AttributeError`
messages. -/
def pyTypeName : Json → String
  | .null => "NoneType"
  | .bool _ => "bool"
  | .num _ => "int"
  | .str _ => "str"
  | .arr _ => "list"
  | .obj _ => "dict"

mutual

/-- Python `repr` of a value (element rendering inside containers).
String escaping inside `repr` is not modelled; the handlers only ever
format scalar values. -/
def pyRepr : Json → String
  | .null => "None"
  | .bool true => "True"
  | .bool false => "False"
  | .num n => toString n
  | .str s => "\x27" ++ s ++ "\x27"
  | .arr l => "[" ++ String.intercalate ", " (pyReprList l) ++ "]"
  | .obj l => "\x7b" ++ String.intercalate ", " (pyReprFields l) ++ "\x7d"

def pyReprList : List Json → List String
  | [] => []
  | j :: rest => pyRepr j :: pyReprList rest

def pyReprFields : List (String × Json) → List String
  | [] => []
  | (k, v) :: rest => ("\x27" ++ k ++ "\x27: " ++ pyRepr v) :: pyReprFields rest

end

/-- Python `str()` of a value, as used by f-string interpolation. -/
def pyStr (j : Json) : String :=
  match j with
  | .str s => s
  | _ => pyRepr j

/-- `d.get(key, default)` on a Python dict (association list). -/
def dictGetD (fields : List (String × Json)) (key : String) (dflt : Json) : Json :=
  (jsonLookup fields key).getD dflt

/-- `d.get(key)` on a Python dict: absent keys give `None`. -/
def dictGet (fields : List (String × Json)) (key : String) : Json :=
  dictGetD fields key .null

/-- `x.get(key, default)` on an arbitrary Python value: succeeds only on a
dict; on any other value Python raises
`AttributeError: TYPE object has no attribute get`. -/
def pyGetAttr (j : Json) (key : String) (dflt : Json) : Except String Json :=
  match j with
  | .obj fields => .ok (dictGetD fields key dflt)
  | _ => .error ("\x27" ++ pyTypeName j ++ "\x27 object has no attribute \x27get\x27")

/-- The global Session Token State (`access_token`, `user_id` in
app.py).  Both start as Python `None` (`Json.null`). -/
structure SessionState where
  access_token : Json
  user_id : Json


/-- Initial state: `access_token = None`, `user_id = None`
(src/app.py lines 30-31). -/
def initialState : SessionState := ⟨.null, .null⟩

/-- `ZOOM_API_BASE_URL` from app.py. -/
def ZOOM_API_BASE_URL : String := "https://api.zoom.us/v2"

/-- Body of an upstream HTTP response as seen by `make_call`:
`response.json()` when the body parses as JSON, otherwise
`response.text`. -/
inductive UpstreamBody where
  | jsonBody (j : Json)
  | textBody (s : String)


/-- Oracle describing what an outbound `requests` call would produce:
either a response (status code and body) or a `requests.RequestException`
(network failure, timeout, ...) with message `msg`. -/
inductive Outcome (β : Type) where
  | response (status_code : Nat) (body : β)
  | netError (msg : String)


/-- An outbound HTTP request built by a handler. -/
structure OutboundReq where
  method : String
  url : String
  headers : List (String × String)
  payload : Json


/-- Result of the `/make-call` handler: the outbound request it issued
(`none` when it returned before issuing one), the HTTP status of the
handler response, and the response body.  A bare-string Flask return
carries status 200. -/
structure MakeCallResult where
  request : Option OutboundReq
  status : Nat
  body : String


/-- The JSON payload built by `make_call` (src/app.py lines 194-205). -/
def callCommandPayload (extension : String) : Json :=
  .obj [("commands", .arr [
    .obj [("command", .str "call"),
          ("params", .obj [("callee", .obj [("extension_number", .str extension)])])]])]

/-- The success page returned by `make_call` on upstream 200/201
(src/app.py lines 226-234). -/
def callInitiatedPage (extension : String) : String :=
  "\n            <html>\n                <body style=\"font-family: Arial, sans-serif; text-align: center; margin-top: 50px;\">\n                    <h1>✅ Call Initiated!</h1>\n                    <p>Your call to extension " ++ extension ++ " has been initiated.</p>\n                    <p><a href=\"/\" style=\"color: #2D8CFF; text-decoration: none;\">Return to Home</a></p>\n                </body>\n            </html>\n            "

/-- Text of the call-failed page before the interpolated error message. -/
def callFailedPre : String :=
  "\n            <html>\n                <body style=\"font-family: Arial, sans-serif; text-align: center; margin-top: 50px;\">\n                    <h1>❌ Call Failed</h1>\n                    <p>Error: "

/-- Text of the call-failed page between the error message and the
interpolated upstream status code. -/
def callFailedMid : String :=
  "</p>\n                    <p>Status Code: "

/-- Text of the call-failed page after the status code. -/
def callFailedPost : String :=
  "</p>\n                    <p><a href=\"/\" style=\"color: #2D8CFF; text-decoration: none;\">Return to Home</a></p>\n                </body>\n            </html>\n            "

/-- The failure page returned by `make_call` on any other upstream status
(src/app.py lines 241-250).  Flask returns it as a bare string, i.e. with
HTTP status 200. -/
def callFailedPage (error_message : String) (status_code : Nat) : String :=
  callFailedPre ++ error_message ++ callFailedMid ++ toString status_code ++ callFailedPost

/-- `error_message` extraction in `make_call` (src/app.py lines 236-238):
`response_data.get("message", "Unknown error")` when the parsed body is a
dict, else the literal `"Unknown error"`; the value is then rendered by
the f-string via `str()`. -/
def extractErrorMessage : UpstreamBody → String
  | .jsonBody (.obj fields) => pyStr (dictGetD fields "message" (.str "Unknown error"))
  | _ => "Unknown error"

/-- The `POST /make-call` handler (src/app.py lines 168-253).
`extension` is `request.form.get("extension")`; `outcome` is the oracle
for the outbound `requests.post` to the call-command endpoint. -/
def make_call (st : SessionState) (extension : Option String)
    (outcome : Outcome UpstreamBody) : MakeCallResult :=
  if pyTruthy st.access_token = false then
    ⟨none, 401, "❌ Not authorized. Please authorize with Zoom first."⟩
  else if pyTruthy st.user_id = false then
    ⟨none, 401, "❌ User ID not available. Please re-authorize with Zoom."⟩
  else if truthyParam extension = false then
    ⟨none, 400, "❌ Missing extension number."⟩
  else
    let ext := extension.getD ""
    let call_url := ZOOM_API_BASE_URL ++ "/phone/users/" ++ pyStr st.user_id ++ "/call_command"
    let headers := [("Authorization", "Bearer " ++ pyStr st.access_token),
                    ("Content-Type", "application/json")]
    let req : OutboundReq := ⟨"POST", call_url, headers, callCommandPayload ext⟩
    match outcome with
    | .netError msg => ⟨some req, 500, "❌ Error initiating call: " ++ msg⟩
    | .response status_code body =>
      if status_code = 201 ∨ status_code = 200 then
        ⟨some req, 200, callInitiatedPage ext⟩
      else
        ⟨some req, 200, callFailedPage (extractErrorMessage body) status_code⟩

/-- Result of the `/callback` handler: the Session Token State after the
request, whether the token-exchange POST and the user-profile GET were
issued, and the handler's HTTP status and body. -/
structure CallbackResult where
  state : SessionState
  tokenRequested : Bool
  profileRequested : Bool
  status : Nat
  body : String

/-- The message of the `requests.HTTPError` raised by
`raise_for_status` for a status `>= 400`.  The real message also carries
the server's reason phrase and the URL, which come from the environment;
only the leading status code and error class are modelled, and no theorem
depends on this text. -/
def httpErrorText (status_code : Nat) : String :=
  toString status_code ++ (if status_code < 500 then " Client Error" else " Server Error")

/-- The HTML confirmation returned by `/callback` on success
(src/app.py lines 154-162). -/
def authSuccessPage : String :=
  "\n        <html>\n            <body style=\"font-family: Arial, sans-serif; text-align: center; margin-top: 50px;\">\n                <h1>✅ Authorization Complete</h1>\n                <p>Server is now authorized to make Zoom Phone calls!</p>\n                <p><a href=\"/\" style=\"color: #2D8CFF; text-decoration: none;\">Return to Home</a></p>\n            </body>\n        </html>\n        "

/-- The `GET /callback` handler (src/app.py lines 103-166).
`code` is `request.args.get("code")`.  The two oracles describe the
token-exchange POST and the user-profile GET; both endpoints return JSON
objects, modelled as association lists.  `raise_for_status` raises (into
the enclosing `except` branch) exactly when the status is `>= 400`.
Mirrors the source order: the global `access_token` is overwritten with
`token_data.get("access_token")` before that value is validated. -/
def callback (st : SessionState) (code : Option String)
    (tokenOutcome : Outcome (List (String × Json)))
    (profileOutcome : Outcome (List (String × Json))) : CallbackResult :=
  if truthyParam code = false then
    ⟨st, false, false, 400, "❌ Authorization code not found."⟩
  else
    match tokenOutcome with
    | .netError msg =>
      ⟨st, true, false, 500, "❌ Failed to get access token: " ++ msg⟩
    | .response status_code token_data =>
      if 400 ≤ status_code then
        ⟨st, true, false, 500, "❌ Failed to get access token: " ++ httpErrorText status_code⟩
      else
        let new_token := dictGet token_data "access_token"
        let st1 : SessionState := { st with access_token := new_token }
        if pyTruthy new_token = false then
          ⟨st1, true, false, 500, "❌ Access token not found in response."⟩
        else
          match profileOutcome with
          | .netError msg =>
            ⟨st1, true, true, 500, "❌ Failed to get user profile: " ++ msg⟩
          | .response pstatus user_data =>
            if 400 ≤ pstatus then
              ⟨st1, true, true, 500, "❌ Failed to get user profile: " ++ httpErrorText pstatus⟩
            else
              ⟨⟨new_token, dictGet user_data "id"⟩, true, true, 200, authSuccessPage⟩

/-- The fields the `/webhook` handler extracts from the payload
(src/app.py lines 269-280). -/
structure WebhookExtract where
  event_type : Json
  caller_number : Json
  callee_number : Json
  call_id : Json
  call_time : Json
  extension : Json

/-- Result of the `/webhook` handler: HTTP status and JSON body
(`jsonify`). -/
structure WebhookResponse where
  status : Nat
  body : Json

/-- The field extraction inside the `try` block of `/webhook`
(src/app.py lines 269-280), in source order.  Each `.get` raises
`AttributeError` when its receiver is not a dict; the first raise aborts
the block with the exception message. -/
def webhookExtract (data : Json) : Except String WebhookExtract := do
  let event_type ← pyGetAttr data "event" .null
  let payload ← pyGetAttr data "payload" (.obj [])
  let call_object ← pyGetAttr payload "object" (.obj [])
  let caller_number ← pyGetAttr call_object "caller_number" .null
  let callee_number ← pyGetAttr call_object "callee_number" .null
  let call_id ← pyGetAttr call_object "id" .null
  let call_time ← pyGetAttr call_object "date_time" .null
  let extension ← pyGetAttr call_object "extension_number" (.str "No extension")
  return ⟨event_type, caller_number, callee_number, call_id, call_time, extension⟩

/-- The `POST /webhook` handler (src/app.py lines 255-295).
`is_json` is Flask's `request.is_json` (JSON content type); `body` is the
parsed request body. -/
def webhook (is_json : Bool) (body : Json) : WebhookResponse :=
  if is_json = false then
    ⟨400, .obj [("status", .str "error"), ("message", .str "Expected JSON payload")]⟩
  else
    match webhookExtract body with
    | .error msg => ⟨500, .obj [("status", .str "error"), ("message", .str msg)]⟩
    | .ok ex => ⟨200, .obj [("status", .str "received"), ("event", ex.event_type)]⟩

/-- The `GET /health` handler (src/app.py lines 297-300). -/
def health_check : WebhookResponse :=
  ⟨200, .obj [("status", .str "healthy")]⟩

/-- Session Token States reachable before any successful `/callback`:
the initial state, extended by `/callback` invocations that did not
return HTTP 200 (the other handlers do not write the state). -/
inductive ReachableNoSuccess : SessionState → Prop where
  | init : ReachableNoSuccess initialState
  | step (st : SessionState) (c : Option String)
      (t p : Outcome (List (String × Json))) :
      ReachableNoSuccess st → (callback st c t p).status ≠ 200 →
      ReachableNoSuccess (callback st c t p).state

/-- The webhook body from the spec's testable-properties example, used to
check the well-formed-webhook behaviour. -/
def exampleWebhookBody : Json :=
  .obj [("event", .str "phone.callee_ringing"),
        ("payload", .obj [("object", .obj
          [("caller_number", .str "100"), ("callee_number", .str "200"),
           ("id", .str "abc"), ("date_time", .str "t")])])]

/-- A profile-lookup outcome on which the inner `try` of `/callback`
raises and is caught: a `requests.RequestException` (network failure), or
a response on which `raise_for_status` raises (status `>= 400`). -/
def outcomeFails : Outcome (List (String × Json)) → Bool
  | .netError _ => true
  | .response status_code _ => decide (400 ≤ status_code)

/-! ## Helper lemmas -/

/-- Every branch of `/callback` other than the final success return
leaves `user_id` unchanged. -/
theorem callback_status_or_user_id (st : SessionState) (c : Option String)
    (t p : Outcome (List (String × Json))) :
    (callback st c t p).status = 200 ∨
    (callback st c t p).state.user_id = st.user_id := by
  unfold callback
  by_cases hc : truthyParam c = false
  · simp [hc]
  · simp only [hc, if_false, if_neg]
    cases t with
    | netError m => simp
    | response sc td =>
      by_cases h4 : 400 ≤ sc
      · simp [h4]
      · simp only [h4, if_false, if_neg]
        by_cases hT : pyTruthy (dictGet td "access_token") = false
        · simp [hT]
        · cases p with
          | netError m => simp [hT]
          | response ps ud =>
            by_cases hp : 400 ≤ ps
            · simp [hT, hp]
            · simp [hT, hp]

/-- Before any successful `/callback`, the stored `user_id` is still
Python `None`: the success return is the only write to it. -/
theorem reachable_user_id_null (st : SessionState) (h : ReachableNoSuccess st) :
    st.user_id = Json.null := by
  induction h with
  | init => rfl
  | step st c t p _ hne ih =>
    rcases callback_status_or_user_id st c t p with h200 | hpres
    · exact absurd h200 hne
    · rw [hpres, ih]

/-- `make_call` returns 401 without issuing a request whenever the stored
`user_id` is falsy (regardless of the token). -/
theorem make_call_unauthorized_of_user_id (st : SessionState)
    (ext : Option String) (outcome : Outcome UpstreamBody)
    (h : pyTruthy st.user_id = false) :
    (make_call st ext outcome).status = 401 ∧
    (make_call st ext outcome).request = none := by
  by_cases ht : pyTruthy st.access_token = false
  · simp [make_call, ht]
  · simp [make_call, ht, h]

/-! ## Claim theorems -/

/-- C4: a `GET /callback` whose query string has no `code` parameter
returns HTTP 400 with a body containing "Authorization code not found",
issues no token-exchange request, and leaves the Session Token State
unchanged. -/
theorem C4_callback_missing_code (st : SessionState)
    (tokenOutcome profileOutcome : Outcome (List (String × Json))) :
    callback st none tokenOutcome profileOutcome =
      ⟨st, false, false, 400, "❌ Authorization code not found."⟩ ∧
    "❌ Authorization code not found." =
      "❌ " ++ "Authorization code not found" ++ "." :=
  ⟨rfl, rfl⟩

/-- C6: the well-formed webhook body
`{"event":"phone.callee_ringing","payload":{"object":{...}}}` yields
HTTP 200 with body `{"status":"received","event":"phone.callee_ringing"}`,
and the extracted extension is the sentinel `"No extension"` because
`extension_number` is absent from `payload.object`. -/
theorem C6_wellformed_webhook :
    webhook true exampleWebhookBody =
      ⟨200, .obj [("status", .str "received"),
                  ("event", .str "phone.callee_ringing")]⟩ ∧
    webhookExtract exampleWebhookBody =
      .ok ⟨.str "phone.callee_ringing", .str "100", .str "200", .str "abc",
           .str "t", .str "No extension"⟩ :=
  ⟨rfl, rfl⟩

/-- C7: a `POST /webhook` whose content type is not JSON returns HTTP 400
with a JSON body whose `status` field is `"error"`; the body of the
request is never consulted (the result is the same for every body). -/
theorem C7_non_json_webhook (body : Json) :
    webhook false body =
      ⟨400, .obj [("status", .str "error"),
                  ("message", .str "Expected JSON payload")]⟩ ∧
    jsonLookup [("status", Json.str "error"),
                ("message", Json.str "Expected JSON payload")] "status" =
      some (.str "error") :=
  ⟨rfl, rfl⟩

/-- C8: when the stored access token and user id are both truthy but the
`extension` form field is absent, `POST /make-call` returns HTTP 400 and
issues no outbound request. -/
theorem C8_missing_extension (st : SessionState) (outcome : Outcome UpstreamBody)
    (ht : pyTruthy st.access_token = true) (hu : pyTruthy st.user_id = true) :
    make_call st none outcome = ⟨none, 400, "❌ Missing extension number."⟩ := by
  simp [make_call, ht, hu, truthyParam]

/-- Witness for C8 at a concrete authorized state. -/
theorem C8_missing_extension_witness :
    pyTruthy (Json.str "tok8") = true ∧ pyTruthy (Json.str "user8") = true ∧
    make_call ⟨.str "tok8", .str "user8"⟩ none (.netError "down") =
      ⟨none, 400, "❌ Missing extension number."⟩ :=
  ⟨rfl, rfl,
   C8_missing_extension ⟨.str "tok8", .str "user8"⟩ (.netError "down") rfl rfl⟩

/-- C2: when the stored access token and user id are truthy and the
`extension` form field holds a non-empty string, the outbound request of
`POST /make-call` is a POST to `/phone/users/{user_id}/call_command`
under the API base URL, with a bearer-token Authorization header and the
JSON body
`{"commands": [{"command": "call", "params": {"callee": {"extension_number": ext}}}]}`,
whatever the upstream outcome. -/
theorem C2_outbound_request_shape (st : SessionState) (ext : String)
    (outcome : Outcome UpstreamBody)
    (ht : pyTruthy st.access_token = true) (hu : pyTruthy st.user_id = true)
    (he : ext ≠ "") :
    (make_call st (some ext) outcome).request =
      some ⟨"POST",
            ZOOM_API_BASE_URL ++ "/phone/users/" ++ pyStr st.user_id ++ "/call_command",
            [("Authorization", "Bearer " ++ pyStr st.access_token),
             ("Content-Type", "application/json")],
            callCommandPayload ext⟩ ∧
    callCommandPayload ext =
      .obj [("commands", .arr [
        .obj [("command", .str "call"),
              ("params", .obj [("callee",
                .obj [("extension_number", .str ext)])])]])] := by
  refine ⟨?_, rfl⟩
  cases outcome with
  | netError msg => simp [make_call, ht, hu, truthyParam, he]
  | response sc body =>
    by_cases hsc : sc = 201 ∨ sc = 200 <;>
      simp [make_call, ht, hu, truthyParam, he, hsc]

/-- Witness for C2 at a concrete authorized state and extension. -/
theorem C2_outbound_request_shape_witness :
    pyTruthy (Json.str "tok2") = true ∧ pyTruthy (Json.str "user2") = true ∧
    ("804" : String) ≠ "" ∧
    ((make_call ⟨.str "tok2", .str "user2"⟩ (some "804")
        (.response 200 (.textBody "ok"))).request =
      some ⟨"POST",
            ZOOM_API_BASE_URL ++ "/phone/users/" ++ pyStr (Json.str "user2") ++ "/call_command",
            [("Authorization", "Bearer " ++ pyStr (Json.str "tok2")),
             ("Content-Type", "application/json")],
            callCommandPayload "804"⟩ ∧
     callCommandPayload "804" =
      .obj [("commands", .arr [
        .obj [("command", .str "call"),
              ("params", .obj [("callee",
                .obj [("extension_number", .str "804")])])]])]) :=
  ⟨rfl, rfl, by decide,
   C2_outbound_request_shape ⟨.str "tok2", .str "user2"⟩ "804"
     (.response 200 (.textBody "ok")) rfl rfl (by decide)⟩

/-- C1 counterexample: with an authorized state, extension `"804"` and an
upstream 404 response carrying a JSON `message`, the handler's own HTTP
status is 200 (Flask returns the call-failed HTML page as a bare string),
not 500 as the claim states. -/
theorem C1_counterexample :
    (make_call ⟨.str "tok1", .str "user1"⟩ (some "804")
        (.response 404 (.jsonBody (.obj [("message", .str "Account not found")])))).status
      = 200 ∧
    ¬ (make_call ⟨.str "tok1", .str "user1"⟩ (some "804")
        (.response 404 (.jsonBody (.obj [("message", .str "Account not found")])))).status
      = 500 :=
  ⟨rfl, by decide⟩

/-- C1 (amended): with an authorized state and a present extension, an
upstream status other than 200 and 201 makes `POST /make-call` return the
call-failed page — with HTTP status 200, Flask's default for a bare
string return — whose body contains the upstream error message (the
`message` field of a JSON-object body, else `"Unknown error"`) and the
upstream status code. -/
theorem C1_upstream_failure (st : SessionState) (ext : String)
    (status_code : Nat) (body : UpstreamBody)
    (ht : pyTruthy st.access_token = true) (hu : pyTruthy st.user_id = true)
    (he : ext ≠ "") (h200 : status_code ≠ 200) (h201 : status_code ≠ 201) :
    make_call st (some ext) (.response status_code body) =
      ⟨some ⟨"POST",
             ZOOM_API_BASE_URL ++ "/phone/users/" ++ pyStr st.user_id ++ "/call_command",
             [("Authorization", "Bearer " ++ pyStr st.access_token),
              ("Content-Type", "application/json")],
             callCommandPayload ext⟩,
        200, callFailedPage (extractErrorMessage body) status_code⟩ ∧
    ∃ s1 s2 s3, callFailedPage (extractErrorMessage body) status_code =
      s1 ++ extractErrorMessage body ++ s2 ++ toString status_code ++ s3 := by
  refine ⟨?_, callFailedPre, callFailedMid, callFailedPost, rfl⟩
  simp [make_call, ht, hu, truthyParam, he, h200, h201]

/-- Witness for C1 (amended) at a concrete input with upstream 404. -/
theorem C1_upstream_failure_witness :
    pyTruthy (Json.str "tok1w") = true ∧ pyTruthy (Json.str "user1w") = true ∧
    ("805" : String) ≠ "" ∧ (404 : Nat) ≠ 200 ∧ (404 : Nat) ≠ 201 ∧
    (make_call ⟨.str "tok1w", .str "user1w"⟩ (some "805")
        (.response 404 (.jsonBody (.obj [("message", .str "User not found")]))) =
      ⟨some ⟨"POST",
             ZOOM_API_BASE_URL ++ "/phone/users/" ++ pyStr (Json.str "user1w") ++ "/call_command",
             [("Authorization", "Bearer " ++ pyStr (Json.str "tok1w")),
              ("Content-Type", "application/json")],
             callCommandPayload "805"⟩,
        200, callFailedPage
          (extractErrorMessage (.jsonBody (.obj [("message", .str "User not found")]))) 404⟩ ∧
     ∃ s1 s2 s3,
       callFailedPage
          (extractErrorMessage (.jsonBody (.obj [("message", .str "User not found")]))) 404 =
        s1 ++ extractErrorMessage (.jsonBody (.obj [("message", .str "User not found")])) ++
          s2 ++ toString (404 : Nat) ++ s3) :=
  ⟨rfl, rfl, by decide, by decide, by decide,
   C1_upstream_failure ⟨.str "tok1w", .str "user1w"⟩ "805" 404
     (.jsonBody (.obj [("message", .str "User not found")]))
     rfl rfl (by decide) (by decide) (by decide)⟩

/-- C3: whenever the stored `access_token` or `user_id` is absent
(Python `None`), `POST /make-call` returns HTTP 401 and issues no
outbound request; in particular this holds in every state reachable
before any successful `/callback`, the initial state included. -/
theorem C3_make_call_unauthorized :
    (∀ (st : SessionState) (ext : Option String) (outcome : Outcome UpstreamBody),
        st.access_token = Json.null ∨ st.user_id = Json.null →
        (make_call st ext outcome).status = 401 ∧
        (make_call st ext outcome).request = none) ∧
    (∀ (st : SessionState), ReachableNoSuccess st →
        ∀ (ext : Option String) (outcome : Outcome UpstreamBody),
        (make_call st ext outcome).status = 401 ∧
        (make_call st ext outcome).request = none) := by
  have h1 : ∀ (st : SessionState) (ext : Option String) (outcome : Outcome UpstreamBody),
      st.access_token = Json.null ∨ st.user_id = Json.null →
      (make_call st ext outcome).status = 401 ∧
      (make_call st ext outcome).request = none := by
    intro st ext outcome h
    rcases h with h | h
    · have ht : pyTruthy st.access_token = false := by rw [h]; rfl
      simp [make_call, ht]
    · exact make_call_unauthorized_of_user_id st ext outcome (by rw [h]; rfl)
  refine ⟨h1, fun st hr ext outcome => ?_⟩
  exact h1 st ext outcome (Or.inr (reachable_user_id_null st hr))

/-- Witness for C3: a state with a token but no user id, and the initial
state (reachable with no successful callback). -/
theorem C3_make_call_unauthorized_witness :
    ((⟨.str "tok3", .null⟩ : SessionState).access_token = Json.null ∨
      (⟨.str "tok3", .null⟩ : SessionState).user_id = Json.null) ∧
    ((make_call ⟨.str "tok3", .null⟩ (some "804") (.netError "down")).status = 401 ∧
     (make_call ⟨.str "tok3", .null⟩ (some "804") (.netError "down")).request = none) ∧
    ((make_call initialState (some "804") (.netError "down")).status = 401 ∧
     (make_call initialState (some "804") (.netError "down")).request = none) :=
  ⟨Or.inr rfl,
   C3_make_call_unauthorized.1 ⟨.str "tok3", .null⟩ (some "804") (.netError "down")
     (Or.inr rfl),
   C3_make_call_unauthorized.2 initialState ReachableNoSuccess.init
     (some "804") (.netError "down")⟩

/-- C5: a `/callback` with a code whose token exchange returns 2xx with a
JSON body lacking `access_token` fails with HTTP 500 and never issues the
user-profile lookup (and, per the source order, the stored token has
already been overwritten with `None`). -/
theorem C5_missing_token (st : SessionState) (c : String) (status_code : Nat)
    (token_data : List (String × Json))
    (profileOutcome : Outcome (List (String × Json)))
    (hc : c ≠ "") (h2xx : 200 ≤ status_code ∧ status_code < 300)
    (hmiss : jsonLookup token_data "access_token" = none) :
    callback st (some c) (.response status_code token_data) profileOutcome =
      ⟨⟨.null, st.user_id⟩, true, false, 500,
       "❌ Access token not found in response."⟩ := by
  have h400 : ¬ 400 ≤ status_code := by omega
  simp [callback, truthyParam, hc, h400, dictGet, dictGetD, hmiss, pyTruthy]

/-- Witness for C5: a 200 token response carrying only a refresh token. -/
theorem C5_missing_token_witness :
    ("code5" : String) ≠ "" ∧ ((200 : Nat) ≤ 200 ∧ (200 : Nat) < 300) ∧
    jsonLookup [("refresh_token", Json.str "r5")] "access_token" = none ∧
    callback initialState (some "code5")
        (.response 200 [("refresh_token", Json.str "r5")]) (.netError "n") =
      ⟨⟨.null, initialState.user_id⟩, true, false, 500,
       "❌ Access token not found in response."⟩ :=
  ⟨by decide, by omega, rfl,
   C5_missing_token initialState "code5" 200 [("refresh_token", Json.str "r5")]
     (.netError "n") (by decide) (by omega) rfl⟩

/-- C9: the `/callback` error branches are not atomic.  (a) When the
token response (status `< 400`) lacks `access_token`, the handler fails
with 500 but has already overwritten the stored token with `None`,
keeping the previous `user_id`.  (b) When the token is present and truthy
but the user-profile lookup fails, the handler fails with 500 leaving the
new token stored while `user_id` keeps its previous value. -/
theorem C9_callback_not_atomic :
    (∀ (st : SessionState) (c : String) (status_code : Nat)
        (token_data : List (String × Json))
        (profileOutcome : Outcome (List (String × Json))),
        c ≠ "" → status_code < 400 →
        jsonLookup token_data "access_token" = none →
        (callback st (some c) (.response status_code token_data) profileOutcome).status
            = 500 ∧
        (callback st (some c) (.response status_code token_data) profileOutcome).state
            = ⟨.null, st.user_id⟩) ∧
    (∀ (st : SessionState) (c : String) (status_code : Nat)
        (token_data : List (String × Json)) (tok : Json)
        (profileOutcome : Outcome (List (String × Json))),
        c ≠ "" → status_code < 400 →
        jsonLookup token_data "access_token" = some tok → pyTruthy tok = true →
        outcomeFails profileOutcome = true →
        (callback st (some c) (.response status_code token_data) profileOutcome).status
            = 500 ∧
        (callback st (some c) (.response status_code token_data) profileOutcome).state
            = ⟨tok, st.user_id⟩) := by
  constructor
  · intro st c status_code token_data profileOutcome hc hsc hmiss
    have h400 : ¬ 400 ≤ status_code := by omega
    simp [callback, truthyParam, hc, h400, dictGet, dictGetD, hmiss, pyTruthy]
  · intro st c status_code token_data tok profileOutcome hc hsc htok htruthy hfail
    have h400 : ¬ 400 ≤ status_code := by omega
    cases profileOutcome with
    | netError m =>
      simp [callback, truthyParam, hc, h400, dictGet, dictGetD, htok, htruthy]
    | response ps ud =>
      have hp : 400 ≤ ps := by
        have := hfail
        simp [outcomeFails] at this
        exact this
      simp [callback, truthyParam, hc, h400, dictGet, dictGetD, htok, htruthy, hp]

/-- Witness for C9: (a) a 200 token response with no `access_token`
after a previously authorized state; (b) a 200 token response with a
token followed by a failed profile lookup. -/
theorem C9_callback_not_atomic_witness :
    ((callback ⟨.str "oldTok", .str "oldUser"⟩ (some "c9a")
        (.response 200 [("expires_in", Json.num 3599)]) (.netError "n")).status = 500 ∧
     (callback ⟨.str "oldTok", .str "oldUser"⟩ (some "c9a")
        (.response 200 [("expires_in", Json.num 3599)]) (.netError "n")).state
        = ⟨.null, Json.str "oldUser"⟩) ∧
    ((callback ⟨.str "oldTok", .str "oldUser"⟩ (some "c9b")
        (.response 200 [("access_token", Json.str "newTok")])
        (.response 503 [])).status = 500 ∧
     (callback ⟨.str "oldTok", .str "oldUser"⟩ (some "c9b")
        (.response 200 [("access_token", Json.str "newTok")])
        (.response 503 [])).state = ⟨Json.str "newTok", Json.str "oldUser"⟩) :=
  ⟨C9_callback_not_atomic.1 ⟨.str "oldTok", .str "oldUser"⟩ "c9a" 200
     [("expires_in", Json.num 3599)] (.netError "n") (by decide) (by omega) rfl,
   C9_callback_not_atomic.2 ⟨.str "oldTok", .str "oldUser"⟩ "c9b" 200
     [("access_token", Json.str "newTok")] (Json.str "newTok") (.response 503 [])
     (by decide) (by omega) rfl rfl (by decide)⟩

/-- C10 counterexample: the JSON-object body `{"payload": "x"}` makes the
`payload.get("object", {})` call raise `AttributeError` (its receiver is
a string, not a dict), so the handler takes the HTTP 500 branch — which
the claim says is unreachable for JSON-object bodies. -/
theorem C10_counterexample :
    webhook true (.obj [("payload", .str "x")]) =
      ⟨500, .obj [("status", .str "error"),
                  ("message",
                   .str "\x27str\x27 object has no attribute \x27get\x27")]⟩ ∧
    ¬ (webhook true (.obj [("payload", .str "x")])).status = 200 :=
  ⟨rfl, by decide⟩

/-- C10 (amended): for a `POST /webhook` with JSON content type whose
body is a JSON object in which `payload`, when present, is an object and
`payload.object`, when present, is an object, the handler returns
HTTP 200 with body `{"status": "received", "event": e}` where `e` is the
body's `event` value (`null` when absent); all other field extractions
default and cannot fail.  (When `payload` or `payload.object` holds a
non-object value, the 500 branch is reachable, as the counterexample
shows.) -/
theorem C10_json_object_webhook (fields pf ob : List (String × Json))
    (hp : (jsonLookup fields "payload").getD (.obj []) = .obj pf)
    (ho : (jsonLookup pf "object").getD (.obj []) = .obj ob) :
    webhook true (.obj fields) =
      ⟨200, .obj [("status", .str "received"),
                  ("event", (jsonLookup fields "event").getD .null)]⟩ := by
  simp [webhook, webhookExtract, pyGetAttr, dictGetD, dictGet, hp, ho,
    bind, Except.bind, Functor.map, Except.map, pure, Except.pure]

/-- Witness for C10 (amended): a body with only an `event` field;
`payload` and `payload.object` default to empty dicts. -/
theorem C10_json_object_webhook_witness :
    (jsonLookup [("event", Json.str "e10")] "payload").getD (.obj []) = .obj [] ∧
    (jsonLookup ([] : List (String × Json)) "object").getD (.obj []) = .obj [] ∧
    webhook true (.obj [("event", .str "e10")]) =
      ⟨200, .obj [("status", .str "received"),
                  ("event",
                   (jsonLookup [("event", Json.str "e10")] "event").getD .null)]⟩ :=
  ⟨rfl, rfl, C10_json_object_webhook [("event", Json.str "e10")] [] [] rfl rfl⟩

end ZoomApp
